import Mathlib

/-!
Verification of the Notation Resolution & Annotation Aggregation core of the
variantToPhenotype server (src/index.js) against its specification.

The JavaScript source is shallowly embedded: every function below is a direct
translation of the corresponding function in src/index.js.  Network calls are
modelled by explicit oracles: an oracle of type `Nat → Except ε α` gives, for
each attempt index, either the thrown error (network error or non-2xx status,
which axios surfaces as an exception) or the parsed response body.  JSON
response bodies are modelled by structures whose `Option` fields stand for
possibly-absent (undefined/null) JSON fields; `none` is a falsy field.
-/

/-- Decidable equality for `Except`, used to evaluate witnesses with `decide`. -/
instance {ε α : Type} [DecidableEq ε] [DecidableEq α] : DecidableEq (Except ε α) := fun a b =>
  match a, b with
  | Except.ok x, Except.ok y =>
      if h : x = y then isTrue (by rw [h]) else isFalse (by intro hc; cases hc; exact h rfl)
  | Except.error x, Except.error y =>
      if h : x = y then isTrue (by rw [h]) else isFalse (by intro hc; cases hc; exact h rfl)
  | Except.ok _, Except.error _ => isFalse (by intro hc; cases hc)
  | Except.error _, Except.ok _ => isFalse (by intro hc; cases hc)

/-!
## Resilient call client (`makeApiCall`, src/index.js lines 10-20)

```js
async function makeApiCall(url, options = {}, maxRetries = 2) {
  const headers = options.headers || { "Content-Type": "application/json" };
  for (let attempt = 0; attempt <= maxRetries; attempt++) {
    try {
      return (await axiosClient.get(url, { ...options, headers })).data;
    } catch (error) {
      if (attempt === maxRetries) throw error;
      await new Promise(resolve => setTimeout(resolve, Math.pow(2, attempt) * 1000));
    }
  }
}
```

The loop body is modelled by `makeApiCallGo attempts attempt remaining` where
`remaining = maxRetries - attempt` (so `remaining = 0` exactly when
`attempt === maxRetries`).  The returned pair is the result of the call
together with the trace of sleep durations (milliseconds, the argument passed
to `setTimeout`), in the order the sleeps happen.
-/

def makeApiCallGo {ε α : Type} (attempts : Nat → Except ε α) (attempt remaining : Nat) :
    Except ε α × List Nat :=
  match attempts attempt with
  | Except.ok a => (Except.ok a, [])
  | Except.error e =>
    match remaining with
    | 0 => (Except.error e, [])
    | r + 1 =>
      let next := makeApiCallGo attempts (attempt + 1) r
      (next.1, 2 ^ attempt * 1000 :: next.2)

/-- `makeApiCall` with attempt outcomes given by the oracle `attempts`;
the JS default is `maxRetries = 2`. -/
def makeApiCall {ε α : Type} (attempts : Nat → Except ε α) (maxRetries : Nat) :
    Except ε α × List Nat :=
  makeApiCallGo attempts 0 maxRetries

/-- The value `makeApiCall` returns (or the error it throws), without the sleep trace. -/
def makeApiCallResult {ε α : Type} (attempts : Nat → Except ε α) (maxRetries : Nat) :
    Except ε α :=
  (makeApiCall attempts maxRetries).1

/-- The backoff sleep trace `[2^a * 1000, 2^(a+1) * 1000, ...]` of length `n`. -/
def backoffTrace : Nat → Nat → List Nat
  | _, 0 => []
  | a, n + 1 => 2 ^ a * 1000 :: backoffTrace (a + 1) n

/-!
## UCSC annotation fetch (`fetchUcscData`, src/index.js lines 345-369)

```js
async function fetchUcscData(coords, track) {
  const { seq_region_name, start, end } = coords;
  const chrom = seq_region_name.startsWith('chr') ? seq_region_name : `chr${seq_region_name}`;
  const maxRegionSize = 1000000;
  const regionSize = end - start + 1;
  const adjustedStart = regionSize > maxRegionSize ? end - maxRegionSize : start;
  const adjustedEnd = adjustedStart + Math.min(regionSize, maxRegionSize);
  const url = ...adjustedStart...adjustedEnd...;
  try {
    const data = await makeApiCall(url);
    if (!data) return null;
    if (data.error) { ...; return null; }
    return data;
  } catch (error) { ...; return null; }
}
```
-/

/-- The coordinates handed to the annotation aggregator (`results.coordinates`
fields used by `fetchUcscData`). -/
structure Coords where
  seq_region_name : String
  start : Int
  end_ : Int
  deriving DecidableEq

/-- `charsStartWith l p` is true when `p` is a prefix of `l` (JS `String.startsWith`). -/
def charsStartWith (l p : List Char) : Bool :=
  match p, l with
  | [], _ => true
  | _ :: _, [] => false
  | q :: qs, c :: cs => (c == q) && charsStartWith cs qs

/-- JS `s.startsWith(p)`. -/
def strStartsWith (s p : String) : Bool :=
  charsStartWith s.toList p.toList

/-- The chromosome label used in the UCSC URL. -/
def chromLabel (srn : String) : String :=
  if strStartsWith srn "chr" then srn else "chr" ++ srn

def maxRegionSize : Int := 1000000

/-- `const regionSize = end - start + 1;` -/
def regionSize (c : Coords) : Int := c.end_ - c.start + 1

/-- `const adjustedStart = regionSize > maxRegionSize ? end - maxRegionSize : start;` -/
def adjustedStart (c : Coords) : Int :=
  if regionSize c > maxRegionSize then c.end_ - maxRegionSize else c.start

/-- `const adjustedEnd = adjustedStart + Math.min(regionSize, maxRegionSize);` -/
def adjustedEnd (c : Coords) : Int :=
  adjustedStart c + min (regionSize c) maxRegionSize

/-- A UCSC track response body: the `error` field is the payload-level error
marker checked by `fetchUcscData`; `body` stands for the rest of the JSON. -/
structure UcscPayload where
  error : Option String
  body : String
  deriving DecidableEq

/-- `fetchUcscData` for one track: the oracle gives the attempt outcomes of the
single `makeApiCall(url)` (default `maxRetries = 2`); `Except.ok none` is a
falsy (`!data`) body.  Returns `none` on a thrown error, a falsy body, or a
payload-level `data.error` marker. -/
def fetchUcscData (c : Coords) (attempts : Nat → Except String (Option UcscPayload)) :
    Option UcscPayload :=
  match makeApiCallResult attempts 2 with
  | Except.error _ => none
  | Except.ok none => none
  | Except.ok (some d) => if d.error.isSome then none else some d

/-- `fetchGeneAnnotations` (track `knownGene`). -/
def fetchGeneAnnotations (c : Coords) (attempts : Nat → Except String (Option UcscPayload)) :
    Option UcscPayload :=
  fetchUcscData c attempts

/-- `fetchConservationScores` (track `phastCons20way`). -/
def fetchConservationScores (c : Coords) (attempts : Nat → Except String (Option UcscPayload)) :
    Option UcscPayload :=
  fetchUcscData c attempts

/-- `fetchKnownSNPs` (track `snp150`). -/
def fetchKnownSNPs (c : Coords) (attempts : Nat → Except String (Option UcscPayload)) :
    Option UcscPayload :=
  fetchUcscData c attempts

/-- `fetchClinVarData` (track `clinvar_20221231`). -/
def fetchClinVarData (c : Coords) (attempts : Nat → Except String (Option UcscPayload)) :
    Option UcscPayload :=
  fetchUcscData c attempts

/-- `results.annotations` as assembled in Step 4 of `variantToPhenotypeExploration`. -/
structure Annotations where
  genes : Option UcscPayload
  conservation : Option UcscPayload
  snps : Option UcscPayload
  clinvar : Option UcscPayload
  deriving DecidableEq

/-- Step 4 of `variantToPhenotypeExploration` (src/index.js lines 110-131): the
four layer fetches run with independent oracles; each fetch already catches its
own failures (and the extra `.catch(() => null)` at the call sites can never
fire, because `fetchUcscData` never rejects). -/
def step4Annotations (c : Coords)
    (og oc os ocl : Nat → Except String (Option UcscPayload)) : Annotations :=
  { genes := fetchGeneAnnotations c og
    conservation := fetchConservationScores c oc
    snps := fetchKnownSNPs c os
    clinvar := fetchClinVarData c ocl }

/-!
## Variant classifier (`parseVariantFormat`, src/index.js lines 23-41)

```js
function parseVariantFormat(variant) {
  try {
    if (variant.match(/^[A-Za-z0-9]+\.[0-9]+:[gcp]\./))
      return { format: "hgvs", hgvs: variant };
    const geneMatch = variant.match(/^([A-Za-z0-9]+)[\s:]([cp]\..*)/);
    if (geneMatch) {
      const [_, gene, cdnaVariant] = geneMatch;
      return { format: "cdna", gene, variant: cdnaVariant };
    }
    if (variant.match(/^rs[0-9]+$/))
      return { format: "rsid", hgvs: variant };
    return { error: "Unrecognized variant format" };
  } catch (error) {
    return { error: "Failed to parse variant format" };
  }
}
```

The regexes are translated by maximal-munch string scanning, which is faithful
here: in each regex, the character required right after a `+`-repeated class
lies outside that class (`.` after `[A-Za-z0-9]+`, `:` after `[0-9]+`,
`[\s:]` after `[A-Za-z0-9]+`), so backtracking into the repetition can never
produce a match that the maximal run does not.  The `try`/`catch` in the JS is
dead (`String.match` does not throw on these inputs), so the
`"Failed to parse variant format"` arm is not modelled.
-/

/-- The `[A-Za-z0-9]` class (core `Char.isAlpha`/`Char.isDigit` are ASCII-only,
matching the regex class exactly). -/
def isAlnum (c : Char) : Bool := c.isAlpha || c.isDigit

/-- The ECMAScript `\s` class. -/
def isJsWhitespace (c : Char) : Bool :=
  c == ' ' || c == '\t' || c == '\n' || c.toNat == 11 || c.toNat == 12 || c == '\r' ||
  c.toNat == 0xa0 || c.toNat == 0x1680 || (0x2000 ≤ c.toNat && c.toNat ≤ 0x200a) ||
  c.toNat == 0x2028 || c.toNat == 0x2029 || c.toNat == 0x202f || c.toNat == 0x205f ||
  c.toNat == 0x3000 || c.toNat == 0xfeff

/-- The `[\s:]` class. -/
def isSpaceOrColon (c : Char) : Bool := isJsWhitespace c || c == ':'

/-- An ECMAScript line terminator (which `.` does not match). -/
def isLineTerm (c : Char) : Bool :=
  c == '\n' || c == '\r' || c.toNat == 0x2028 || c.toNat == 0x2029

/-- `/^[A-Za-z0-9]+\.[0-9]+:[gcp]\./.test(variant)` (a prefix match). -/
def matchHgvsAccession (l : List Char) : Bool :=
  let acc := l.takeWhile isAlnum
  let r1 := l.dropWhile isAlnum
  !acc.isEmpty &&
    match r1 with
    | d1 :: r2 =>
      d1 == '.' &&
        (!(r2.takeWhile Char.isDigit).isEmpty &&
          match r2.dropWhile Char.isDigit with
          | c1 :: c2 :: c3 :: _ =>
            c1 == ':' && (c2 == 'g' || c2 == 'c' || c2 == 'p') && c3 == '.'
          | _ => false)
    | [] => false

/-- `variant.match(/^([A-Za-z0-9]+)[\s:]([cp]\..*)/)`: on a match, returns the
two capture groups (gene symbol; change, which the greedy `.*` extends to the
first line terminator). -/
def matchGeneCdna (l : List Char) : Option (List Char × List Char) :=
  let gene := l.takeWhile isAlnum
  let rest := l.dropWhile isAlnum
  if gene.isEmpty then none
  else
    match rest with
    | sep :: d :: dot :: tail =>
      if isSpaceOrColon sep && (d == 'c' || d == 'p') && dot == '.' then
        some (gene, d :: '.' :: tail.takeWhile (fun c => !isLineTerm c))
      else none
    | _ => none

/-- `/^rs[0-9]+$/.test(variant)`. -/
def matchRsid (l : List Char) : Bool :=
  match l with
  | c1 :: c2 :: ds => c1 == 'r' && c2 == 's' && !ds.isEmpty && ds.all Char.isDigit
  | _ => false

/-- The tagged value `parseVariantFormat` returns: `{format:"hgvs", hgvs}`,
`{format:"cdna", gene, variant}`, `{format:"rsid", hgvs}`, or `{error}`. -/
inductive ParsedVariant where
  | hgvs (hgvs : String)
  | cdna (gene variant : String)
  | rsid (hgvs : String)
  | err (msg : String)
  deriving DecidableEq

/-- `parseVariantFormat` (src/index.js lines 23-41). -/
def parseVariantFormat (variant : String) : ParsedVariant :=
  if matchHgvsAccession variant.toList then ParsedVariant.hgvs variant
  else
    match matchGeneCdna variant.toList with
    | some (gene, cdnaVariant) =>
        ParsedVariant.cdna (String.mk gene) (String.mk cdnaVariant)
    | none =>
        if matchRsid variant.toList then ParsedVariant.rsid variant
        else ParsedVariant.err "Unrecognized variant format"

/-!
## Gene coordinate lookup (`getGeneCoordinates`, src/index.js lines 140-154)
-/

/-- The Ensembl `lookup/symbol` response body (fields `getGeneCoordinates` reads);
`seq_region_name = none` models an absent/falsy field. -/
structure GeneLookupData where
  seq_region_name : Option String
  start : Int
  end_ : Int
  strand : Int
  deriving DecidableEq

/-- The object `getGeneCoordinates` returns. -/
structure GeneCoords where
  seq_region_name : String
  start : Int
  end_ : Int
  strand : Int
  gene : String
  deriving DecidableEq

/-- `getGeneCoordinates(geneName)`: `lookup` is the settled result of its single
`makeApiCall` (`Except.ok none` models a falsy `data`).  Throws
`"No coordinate data returned for gene"` when `!data || !data.seq_region_name`. -/
def getGeneCoordinates (geneName : String) (lookup : Except String (Option GeneLookupData)) :
    Except String GeneCoords :=
  match lookup with
  | Except.error e => Except.error e
  | Except.ok none => Except.error "No coordinate data returned for gene"
  | Except.ok (some d) =>
    match d.seq_region_name with
    | none => Except.error "No coordinate data returned for gene"
    | some srn =>
      Except.ok { seq_region_name := srn, start := d.start, end_ := d.end_,
                  strand := d.strand, gene := geneName }

/-!
## HGVS/rsID resolution (`convertHGVS`, src/index.js lines 157-299)

Only the rsID branch (lines 160-178) is claim-relevant; the genomic-HGVS
fallback chain (lines 181-295) is abstracted by the `otherPath` parameter,
which stands for the settled outcome of that branch.
-/

/-- One entry of the `mappings` array of an Ensembl variation response. -/
structure Mapping where
  assembly_name : String
  seq_region_name : String
  start : Int
  end_ : Int
  strand : Int
  deriving DecidableEq

/-- The Ensembl `variation/human/rsID` response body (`mappings` is
`data.mappings`, absent modelled as `none`; `allele_string` likewise). -/
structure VariationData where
  mappings : Option (List Mapping)
  allele_string : Option String
  deriving DecidableEq

/-- The coordinates object the rsID branch of `convertHGVS` returns. -/
structure ResolvedCoords where
  seq_region_name : String
  start : Int
  end_ : Int
  strand : Option Int
  allele_string : Option String
  source : String
  deriving DecidableEq

/-- The rsID branch of `convertHGVS` (src/index.js lines 160-178): `lookup` is
the settled result of `makeApiCall` on the variation URL. -/
def convertHgvsRsid (lookup : Except String (Option VariationData)) :
    Except String ResolvedCoords :=
  match lookup with
  | Except.error e => Except.error e
  | Except.ok none => Except.error "No data returned from Ensembl for rsID"
  | Except.ok (some data) =>
    match (data.mappings.getD []).find? (fun m => m.assembly_name == "GRCh38") with
    | none => Except.error "No GRCh38 mapping found for this rsID"
    | some m =>
      Except.ok { seq_region_name := m.seq_region_name, start := m.start, end_ := m.end_,
                  strand := some m.strand, allele_string := data.allele_string,
                  source := "rsid_direct" }

/-- `convertHGVS(hgvs)`: dispatches on `hgvs.startsWith('rs')`; the non-rsID
branch is the abstracted `otherPath`. -/
def convertHGVS (hgvs : String) (rsidLookup : Except String (Option VariationData))
    (otherPath : Except String ResolvedCoords) : Except String ResolvedCoords :=
  if strStartsWith hgvs "rs" then convertHgvsRsid rsidLookup else otherPath

/-!
## Gene + cDNA conversion (`convertGeneToHGVS`, src/index.js lines 395-559)
-/

/-- `l.includes(p)` — substring containment (JS `String.includes`). -/
def charsContain : List Char → List Char → Bool
  | [], p => p.isEmpty
  | c :: t, p => charsStartWith (c :: t) p || charsContain t p

/-- JS `s.includes(sub)`. -/
def strContains (s sub : String) : Bool :=
  charsContain s.toList sub.toList

/-- `cdnaVariant.match(/del|ins|dup|>|fs/)` — unanchored substring search. -/
def hasMutationPattern (cdnaVariant : String) : Bool :=
  strContains cdnaVariant "del" || strContains cdnaVariant "ins" ||
  strContains cdnaVariant "dup" || strContains cdnaVariant ">" ||
  strContains cdnaVariant "fs"

/-- One record of the `variation/human?symbol=gene` response.  `phenotypes` and
`synonyms` are `none` when the JSON field is absent (falsy); a present array is
truthy in JS even when empty, so presence alone models the truthiness checks. -/
structure VariationRecord where
  id : String
  phenotypes : Option (List String)
  synonyms : Option (List String)
  deriving DecidableEq

/-- `searchData.find(v => v.phenotypes && v.synonyms && v.synonyms.some(s => s.includes(cdnaVariant)))`. -/
def findMatchingVariant (records : List VariationRecord) (cdnaVariant : String) :
    Option VariationRecord :=
  records.find? (fun v =>
    v.phenotypes.isSome &&
      match v.synonyms with
      | none => false
      | some syns => syns.any (fun s => strContains s cdnaVariant))

/-- An Ensembl transcript entry; `is_canonical` is the JS truthiness of the
numeric `is_canonical` flag. -/
structure Transcript where
  id : String
  is_canonical : Bool
  deriving DecidableEq

/-- The `lookup/symbol/...?expand=1` response body (fields `convertGeneToHGVS`
reads); `transcriptList` is the JSON field named `Transcript`. -/
structure GeneExpandData where
  id : Option String
  transcriptList : Option (List Transcript)
  deriving DecidableEq

/-- One allele record of a Variant Recoder response (each field
`x` is used as `x && x.length > 0` in the JS). -/
structure RecoderAllele where
  hgvsg : Option (List String)
  hgvsc : Option (List String)
  hgvsp : Option (List String)
  spdi : Option (List String)
  id : Option (List String)
  deriving DecidableEq

/-- The object `convertGeneToHGVS` resolves with.  The JS returns plain objects
whose field sets differ per branch; absent fields are modelled by `none`/`false`. -/
structure HgvsResult where
  gene : String
  variant : String
  hgvs : Option String
  format : String
  transcript : Option String
  coordinates : Option GeneCoords
  approximate : Bool
  deriving DecidableEq

/-- Approach 1 of `convertGeneToHGVS` (src/index.js lines 400-431): the direct
variation-database search heuristic.  `searchData` is the settled result of
`makeApiCall(searchUrl).catch(() => null)` (`none` = call failed or null body).
Returns the `format:"rsid"` result on a hit, `none` when the heuristic does not
apply or finds nothing (its failure is non-fatal in the JS). -/
def directHeuristic (gene cdnaVariant : String)
    (searchData : Option (List VariationRecord)) : Option HgvsResult :=
  if hasMutationPattern cdnaVariant then
    match searchData with
    | none => none
    | some records =>
      match findMatchingVariant records cdnaVariant with
      | some mv =>
        some { gene := gene, variant := cdnaVariant, hgvs := some mv.id,
               format := "rsid", transcript := none, coordinates := none,
               approximate := false }
      | none => none
  else none

/-- `transcripts.find(t => t.is_canonical) || transcripts[0]`, projected to the id. -/
def canonicalId (transcripts : List Transcript) : Option String :=
  match transcripts.find? (fun t => t.is_canonical) with
  | some t => some t.id
  | none => transcripts.head?.map Transcript.id

/-- `const transcriptsToTry = [transcriptId, ...transcripts.slice(0, 3).map(t => t.id).filter(id => id !== transcriptId)];`
(src/index.js lines 449-452).  The `none` arm is unreachable on the call path,
which has already thrown when the transcript list is empty. -/
def transcriptsToTry (transcripts : List Transcript) : List String :=
  match canonicalId transcripts with
  | none => []
  | some tid =>
    tid :: (((transcripts.take 3).map Transcript.id).filter (fun i => i != tid))

/-- `if (firstAllele.hgvsg && firstAllele.hgvsg.length > 0) ... else if ...`:
the priority chain over the allele fields, returning the chosen value and the
format tag. -/
def pickPreferredField (a : RecoderAllele) : Option (String × String) :=
  match a.hgvsg with
  | some (h :: _) => some (h, "hgvsg")
  | _ =>
    match a.hgvsc with
    | some (h :: _) => some (h, "hgvsc")
    | _ =>
      match a.hgvsp with
      | some (h :: _) => some (h, "hgvsp")
      | _ =>
        match a.spdi with
        | some (h :: _) => some (h, "spdi")
        | _ =>
          match a.id with
          | some (h :: _) => some (h, "rsid")
          | _ => none

/-- One iteration of the transcript loop (src/index.js lines 456-537): `resp`
is the settled result of `makeApiCall(recoderUrl)` for this transcript; the
response is an array of variants, each variant being the list of its allele
records (`Object.values`; the `Object.keys` emptiness test and the dead
`"No allele data found"` check coincide with emptiness of that list).
An error value is the `lastError` this iteration records. -/
def tryTranscript (gene cdnaVariant tid : String)
    (resp : Except String (Option (List (List RecoderAllele)))) :
    Except String HgvsResult :=
  match resp with
  | Except.error e => Except.error e
  | Except.ok none =>
    Except.error ("No data returned from Variant Recoder for transcript " ++ tid)
  | Except.ok (some []) =>
    Except.error ("No data returned from Variant Recoder for transcript " ++ tid)
  | Except.ok (some (firstVariant :: _)) =>
    match firstVariant with
    | [] => Except.error ("Empty variant data for transcript " ++ tid)
    | firstAllele :: _ =>
      match pickPreferredField firstAllele with
      | some (h, fmt) =>
        Except.ok { gene := gene, variant := cdnaVariant, hgvs := some h,
                    format := fmt, transcript := some tid, coordinates := none,
                    approximate := false }
      | none =>
        Except.error ("No usable notation found in response for transcript " ++ tid)

/-- The `for (const currentTranscriptId of transcriptsToTry)` loop, threading
`lastError`; exits with the first success, else with the final `lastError`
(`none` only if the candidate list was empty, which cannot happen on the call
path). -/
def tryTranscriptsLoop (gene cdnaVariant : String)
    (recoder : String → Except String (Option (List (List RecoderAllele))))
    (ids : List String) (lastError : Option String) :
    Except (Option String) HgvsResult :=
  match ids with
  | [] => Except.error lastError
  | tid :: rest =>
    match tryTranscript gene cdnaVariant tid (recoder tid) with
    | Except.ok r => Except.ok r
    | Except.error e => tryTranscriptsLoop gene cdnaVariant recoder rest (some e)

/-- `convertGeneToHGVS(gene, cdnaVariant)` (src/index.js lines 395-559).
Oracles: `searchData` for the approach-1 search (post-`.catch`), `geneLookup`
for the `lookup/symbol?expand=1` call, `recoder` for the per-transcript
Variant Recoder calls, `geneCoordsLookup` for the fallback
`getGeneCoordinates` call. -/
def convertGeneToHGVS (gene cdnaVariant : String)
    (searchData : Option (List VariationRecord))
    (geneLookup : Except String (Option GeneExpandData))
    (recoder : String → Except String (Option (List (List RecoderAllele))))
    (geneCoordsLookup : Except String (Option GeneLookupData)) :
    Except String HgvsResult :=
  match directHeuristic gene cdnaVariant searchData with
  | some r => Except.ok r
  | none =>
    match geneLookup with
    | Except.error e => Except.error e
    | Except.ok none => Except.error "Gene not found in Ensembl"
    | Except.ok (some gd) =>
      match gd.id with
      | none => Except.error "Gene not found in Ensembl"
      | some _ =>
        match gd.transcriptList with
        | none => Except.error "No transcripts found for gene"
        | some [] => Except.error "No transcripts found for gene"
        | some (t :: ts) =>
          match tryTranscriptsLoop gene cdnaVariant recoder
              (transcriptsToTry (t :: ts)) none with
          | Except.ok r => Except.ok r
          | Except.error lastError =>
            match getGeneCoordinates gene geneCoordsLookup with
            | Except.ok gc =>
              Except.ok { gene := gene, variant := cdnaVariant, hgvs := none,
                          format := "gene_coordinates", transcript := none,
                          coordinates := some gc, approximate := true }
            | Except.error _ =>
              Except.error
                (lastError.getD "Failed to convert to HGVS notation with any transcript")

/-!
## Top-level pipeline (`variantToPhenotypeExploration`, src/index.js lines 44-137)

The per-call network outcomes are passed as settled results: `cg` for the
Step 2 `convertGeneToHGVS` call, `ch` for the Step 3 `convertHGVS` call, `gc`
for the Step 3 `getGeneCoordinates` fallback (both fallback call sites use the
same gene, hence one oracle), and `og`/`oc`/`os`/`ocl` for the four Step 4
annotation fetches.
-/

/-- The value of `results.hgvs` after Step 2: `{format, hgvs}` for hgvs/rsid
inputs, the `convertGeneToHGVS` result for cdna inputs, or the
`{gene, variant, format:"cdna", conversionError}` fallback object when that
conversion threw. -/
inductive HgvsInfo where
  | simple (format : String) (hgvs : String)
  | converted (r : HgvsResult)
  | conversionFailed (gene variant conversionError : String)
  deriving DecidableEq

/-- The `hgvs` field read by `results.hgvs?.hgvs` (`none` = absent). -/
def HgvsInfo.hgvsField : HgvsInfo → Option String
  | HgvsInfo.simple _ h => some h
  | HgvsInfo.converted r => r.hgvs
  | HgvsInfo.conversionFailed _ _ _ => none

/-- The `gene` field read by `results.hgvs.gene` (`none` = absent). -/
def HgvsInfo.geneField : HgvsInfo → Option String
  | HgvsInfo.simple _ _ => none
  | HgvsInfo.converted r => some r.gene
  | HgvsInfo.conversionFailed g _ _ => some g

/-- JS truthiness of an optional string field (absent or empty is falsy). -/
def truthyStr : Option String → Bool
  | none => false
  | some s => !s.isEmpty

/-- The value of `results.coordinates`: either the `convertHGVS` result or the
approximate gene-bounds object `{seq_region_name, start, end, approximate: true, gene}`
built in the fallback branches. -/
inductive ResultCoords where
  | resolved (c : ResolvedCoords)
  | geneApprox (seq_region_name : String) (start end_ : Int) (gene : String)
  deriving DecidableEq

/-- The fields `fetchUcscData` destructures from `results.coordinates`. -/
def ResultCoords.toCoords : ResultCoords → Coords
  | ResultCoords.resolved c =>
    { seq_region_name := c.seq_region_name, start := c.start, end_ := c.end_ }
  | ResultCoords.geneApprox srn s e _ =>
    { seq_region_name := srn, start := s, end_ := e }

/-- The `results` object of a successful run.  `annotations = none` models the
initial empty `{}` (Step 4 not run because `results.coordinates` was null). -/
structure ExploreResults where
  variant : String
  parsed : Option ParsedVariant
  hgvs : Option HgvsInfo
  coordinates : Option ResultCoords
  annotations : Option Annotations
  annotationError : Option String
  deriving DecidableEq

/-- The return value of `variantToPhenotypeExploration`: the `results` object,
or an `{ error, details }` object. -/
inductive ExploreOutcome where
  | success (r : ExploreResults)
  | failure (error details : String)
  deriving DecidableEq

/-- Step 3 of `variantToPhenotypeExploration` (src/index.js lines 75-108): an
error value is what escapes the outer Step 3 try/catch and becomes the
`"Failed to get genomic coordinates"` failure. -/
def step3Coordinates (hgvsInfo : Option HgvsInfo) (parsedGene : Option String)
    (ch : Except String ResolvedCoords) (gc : Except String GeneCoords) :
    Except String (Option ResultCoords) :=
  match hgvsInfo with
  | none => Except.ok none
  | some hi =>
    if truthyStr hi.hgvsField then
      match ch with
      | Except.ok c => Except.ok (some (ResultCoords.resolved c))
      | Except.error _ =>
        match hi.geneField.or parsedGene with
        | some _ =>
          match gc with
          | Except.ok g =>
            Except.ok (some (ResultCoords.geneApprox g.seq_region_name g.start g.end_ g.gene))
          | Except.error e => Except.error e
        | none => Except.ok none
    else
      match parsedGene with
      | some _ =>
        match gc with
        | Except.ok g =>
          Except.ok (some (ResultCoords.geneApprox g.seq_region_name g.start g.end_ g.gene))
        | Except.error e => Except.error e
      | none => Except.ok none

/-- Steps 3 and 4 plus the final return (src/index.js lines 75-133).  Nothing
inside the Step 4 `try` can throw, so `annotationError` is always absent. -/
def finishExploration (variant : String) (parsed : ParsedVariant)
    (hgvsInfo : Option HgvsInfo) (parsedGene : Option String)
    (ch : Except String ResolvedCoords) (gc : Except String GeneCoords)
    (og oc os ocl : Nat → Except String (Option UcscPayload)) : ExploreOutcome :=
  match step3Coordinates hgvsInfo parsedGene ch gc with
  | Except.error e => ExploreOutcome.failure "Failed to get genomic coordinates" e
  | Except.ok coordsOpt =>
    ExploreOutcome.success
      { variant := variant, parsed := some parsed, hgvs := hgvsInfo,
        coordinates := coordsOpt,
        annotations := coordsOpt.map (fun c => step4Annotations c.toCoords og oc os ocl),
        annotationError := none }

/-- `variantToPhenotypeExploration(variant)` (src/index.js lines 44-137). -/
def variantToPhenotypeExploration (variant : String)
    (cg : Except String HgvsResult)
    (ch : Except String ResolvedCoords) (gc : Except String GeneCoords)
    (og oc os ocl : Nat → Except String (Option UcscPayload)) : ExploreOutcome :=
  match parseVariantFormat variant with
  | ParsedVariant.err msg => ExploreOutcome.failure "Failed to parse variant format" msg
  | ParsedVariant.cdna gene cdnaVariant =>
    let hgvsInfo :=
      match cg with
      | Except.ok r => HgvsInfo.converted r
      | Except.error e => HgvsInfo.conversionFailed gene cdnaVariant e
    finishExploration variant (ParsedVariant.cdna gene cdnaVariant)
      (some hgvsInfo) (some gene) ch gc og oc os ocl
  | ParsedVariant.hgvs h =>
    finishExploration variant (ParsedVariant.hgvs h)
      (some (HgvsInfo.simple "hgvs" h)) none ch gc og oc os ocl
  | ParsedVariant.rsid h =>
    finishExploration variant (ParsedVariant.rsid h)
      (some (HgvsInfo.simple "rsid" h)) none ch gc og oc os ocl

/-!
## Helper lemmas
-/

/-- If every attempt throws, the loop ends by rethrowing an error. -/
theorem makeApiCallGo_error_of_all_error {ε α : Type}
    (attempts : Nat → Except ε α)
    (hall : ∀ n, ∃ e, attempts n = Except.error e) :
    ∀ (r a : Nat), ∃ e, (makeApiCallGo attempts a r).1 = Except.error e := by
  intro r
  induction r with
  | zero =>
    intro a
    obtain ⟨e, he⟩ := hall a
    exact ⟨e, by unfold makeApiCallGo; rw [he]⟩
  | succ n ih =>
    intro a
    obtain ⟨e, he⟩ := hall a
    obtain ⟨e2, he2⟩ := ih (a + 1)
    exact ⟨e2, by unfold makeApiCallGo; rw [he]; exact he2⟩

/-- If every transcript attempt records an error, the loop exits with an error. -/
theorem tryTranscriptsLoop_error_of_all_error (gene cdnaVariant : String)
    (recoder : String → Except String (Option (List (List RecoderAllele))))
    (hall : ∀ tid, ∃ e, tryTranscript gene cdnaVariant tid (recoder tid) = Except.error e) :
    ∀ (ids : List String) (le : Option String),
      ∃ e, tryTranscriptsLoop gene cdnaVariant recoder ids le = Except.error e := by
  intro ids
  induction ids with
  | nil => exact fun le => ⟨le, rfl⟩
  | cons tid rest ih =>
    intro le
    obtain ⟨e, he⟩ := hall tid
    obtain ⟨e2, he2⟩ := ih (some e)
    exact ⟨e2, by unfold tryTranscriptsLoop; rw [he]; exact he2⟩

/-- A string that the rsID regex accepts starts with the characters `r`, `s`. -/
theorem matchRsid_shape {l : List Char} (h : matchRsid l = true) :
    ∃ ds, l = 'r' :: 's' :: ds ∧ ds ≠ [] ∧ ds.all Char.isDigit = true := by
  match l with
  | [] => simp [matchRsid] at h
  | [c1] => simp [matchRsid] at h
  | c1 :: c2 :: ds =>
    simp only [matchRsid, Bool.and_eq_true, beq_iff_eq, Bool.not_eq_true'] at h
    obtain ⟨⟨⟨h1, h2⟩, h3⟩, h4⟩ := h
    exact ⟨ds, by rw [h1, h2], by simpa using h3, h4⟩

/-- An input the classifier tags as rsID satisfies `hgvs.startsWith('rs')`. -/
theorem parse_rsid_startsWith {s v : String}
    (h : parseVariantFormat s = ParsedVariant.rsid v) :
    strStartsWith s "rs" = true := by
  unfold parseVariantFormat at h
  split at h
  · exact absurd h (by simp)
  · split at h
    · exact absurd h (by simp)
    · split at h
      · rename_i hr
        obtain ⟨ds, hds, _, _⟩ := matchRsid_shape hr
        unfold strStartsWith
        rw [hds, show "rs".toList = ['r', 's'] from rfl]
        simp [charsStartWith]
      · exact absurd h (by simp)

/-- The change captured by the gene+cdna regex starts with `c` or `p` then a dot. -/
theorem matchGeneCdna_shape {l g v : List Char}
    (h : matchGeneCdna l = some (g, v)) :
    ∃ d rest, v = d :: '.' :: rest ∧ (d = 'c' ∨ d = 'p') := by
  simp only [matchGeneCdna] at h
  by_cases hg : (l.takeWhile isAlnum).isEmpty
  · rw [if_pos hg] at h
    cases h
  · rw [if_neg hg] at h
    rcases hdrop : l.dropWhile isAlnum with _ | ⟨sep, _ | ⟨d, _ | ⟨dot, tail⟩⟩⟩ <;>
      rw [hdrop] at h
    · cases h
    · cases h
    · cases h
    · dsimp only at h
      by_cases hcond : (isSpaceOrColon sep && (d == 'c' || d == 'p') && dot == '.') = true
      · rw [if_pos hcond] at h
        simp only [Bool.and_eq_true, Bool.or_eq_true, beq_iff_eq] at hcond
        obtain ⟨⟨_, hd⟩, _⟩ := hcond
        injection h with h
        injection h with h1 h2
        exact ⟨d, tail.takeWhile (fun c => !isLineTerm c), h2.symm, hd⟩
      · rw [if_neg hcond] at h
        cases h

/-- Unfolding step of the retry loop on a thrown failure with attempts left. -/
theorem makeApiCallGo_error_step {ε α : Type} (attempts : Nat → Except ε α)
    (a r : Nat) (e : ε) (he : attempts a = Except.error e) :
    makeApiCallGo attempts a (r + 1) =
      ((makeApiCallGo attempts (a + 1) r).1,
        2 ^ a * 1000 :: (makeApiCallGo attempts (a + 1) r).2) := by
  conv_lhs => unfold makeApiCallGo
  rw [he]

/-- Unfolding step of the retry loop on a resolved response: it returns at once. -/
theorem makeApiCallGo_ok_step {ε α : Type} (attempts : Nat → Except ε α)
    (a r : Nat) (p : α) (hok : attempts a = Except.ok p) :
    makeApiCallGo attempts a r = (Except.ok p, []) := by
  conv_lhs => unfold makeApiCallGo
  rw [hok]

/-!
## Claims
-/

/-- Claim C1, corrected.  The claim asserts that for spans over the cap the
queried window spans exactly 1,000,000 and ends at the original end, and that
for spans at or below the cap the queried window is the original
`start..end` unchanged.  The second half is false in the code: `adjustedEnd =
adjustedStart + Math.min(regionSize, maxRegionSize)` makes the queried end
`end + 1`, one past the original end (see the counterexample).  Amended: for
`regionSize > 1,000,000` the window is `end - 1,000,000 .. end` (difference
exactly 1,000,000); for `regionSize ≤ 1,000,000` the window is
`start .. end + 1`. -/
theorem c1_region_clamp (c : Coords) :
    (regionSize c > maxRegionSize →
      adjustedStart c = c.end_ - 1000000 ∧ adjustedEnd c = c.end_ ∧
      adjustedEnd c - adjustedStart c = 1000000) ∧
    (regionSize c ≤ maxRegionSize →
      adjustedStart c = c.start ∧ adjustedEnd c = c.end_ + 1) := by
  constructor
  · intro h
    have hmin : min (regionSize c) maxRegionSize = maxRegionSize :=
      min_eq_right (le_of_lt h)
    unfold adjustedEnd adjustedStart
    rw [if_pos h, hmin]
    unfold regionSize maxRegionSize at *
    omega
  · intro h
    have hnlt : ¬regionSize c > maxRegionSize := not_lt.2 h
    have hmin : min (regionSize c) maxRegionSize = regionSize c := min_eq_left h
    unfold adjustedEnd adjustedStart
    rw [if_neg hnlt, hmin]
    unfold regionSize
    omega

/-- Counterexample to claim C1 as stated: for `start = 100`, `end = 200`
(span 101, at or below the cap) the queried window is `100..201`, whose end is
not the original end 200 — the window is not `start..end` unchanged. -/
theorem c1_region_clamp_counterexample :
    regionSize ⟨"7", 100, 200⟩ ≤ maxRegionSize ∧
    adjustedStart ⟨"7", 100, 200⟩ = 100 ∧
    adjustedEnd ⟨"7", 100, 200⟩ = 201 ∧
    adjustedEnd ⟨"7", 100, 200⟩ ≠ 200 := by decide

/-- Witness for `c1_region_clamp` at span 2,000,001 (over the cap) and at
span 6 (below the cap). -/
theorem c1_region_clamp_witness :
    adjustedStart ⟨"7", 1, 2000001⟩ = 2000001 - 1000000 ∧
    adjustedEnd ⟨"7", 1, 2000001⟩ = 2000001 ∧
    adjustedStart ⟨"7", 5, 10⟩ = 5 ∧
    adjustedEnd ⟨"7", 5, 10⟩ = 10 + 1 := by
  refine ⟨?_, ?_, ?_, ?_⟩
  · exact ((c1_region_clamp ⟨"7", 1, 2000001⟩).1 (by decide)).1
  · exact ((c1_region_clamp ⟨"7", 1, 2000001⟩).1 (by decide)).2.1
  · exact ((c1_region_clamp ⟨"7", 5, 10⟩).2 (by decide)).1
  · exact ((c1_region_clamp ⟨"7", 5, 10⟩).2 (by decide)).2

/-- Claim C5, corrected.  The claim says `makeApiCall` retries (with
`2^attempt` seconds of backoff) on any failure including a payload-level error
marker carried inside a successfully returned body.  That is false: the JS
`try` only catches thrown errors; a resolved response is returned immediately,
marker or not (see the counterexample), and `fetchUcscData` maps the marker to
`null` without retrying.  Amended: before the last attempt the client retries
only on a thrown failure (network error or non-success status), sleeping
`2^attempt` seconds (`2^attempt * 1000` ms) first; a successfully returned
body ends the call at once, and a payload-level error marker is handled by the
caller (`fetchUcscData` returns null for it).  The loop state at attempt `a`
is `makeApiCallGo attempts a (maxRetries - a)`. -/
theorem c5_retry_policy {ε α : Type} (attempts : Nat → Except ε α)
    (maxRetries attempt : Nat) (e : ε) (p : α)
    (hlast : attempt < maxRetries) :
    (attempts attempt = Except.error e →
      makeApiCallGo attempts attempt (maxRetries - attempt) =
        ((makeApiCallGo attempts (attempt + 1) (maxRetries - (attempt + 1))).1,
          2 ^ attempt * 1000 ::
            (makeApiCallGo attempts (attempt + 1) (maxRetries - (attempt + 1))).2)) ∧
    (attempts attempt = Except.ok p →
      makeApiCallGo attempts attempt (maxRetries - attempt) = (Except.ok p, [])) ∧
    (∀ (c : Coords) (oc : Nat → Except String (Option UcscPayload)) (d : UcscPayload),
      makeApiCallResult oc 2 = Except.ok (some d) → d.error.isSome = true →
      fetchUcscData c oc = none) := by
  refine ⟨?_, ?_, ?_⟩
  · intro he
    have hrem : maxRetries - attempt = (maxRetries - (attempt + 1)) + 1 := by omega
    rw [hrem]
    exact makeApiCallGo_error_step attempts attempt (maxRetries - (attempt + 1)) e he
  · intro hok
    exact makeApiCallGo_ok_step attempts attempt (maxRetries - attempt) p hok
  · intro c oc d hres herr
    unfold fetchUcscData
    rw [hres]
    simp [herr]

/-- Counterexample to claim C5 as stated: attempt 0 resolves with a body
carrying the payload-level error marker while a clean body is available at
attempt 1, yet `makeApiCall` returns the marked body of attempt 0 with an
empty sleep trace — no retry, no backoff. -/
theorem c5_retry_policy_counterexample :
    makeApiCall
        (fun n => if n = 0
          then (Except.ok (some { error := some "upstream failure", body := "b0" }) :
            Except String (Option UcscPayload))
          else Except.ok (some { error := none, body := "b1" })) 2 =
      (Except.ok (some { error := some "upstream failure", body := "b0" }), []) ∧
    makeApiCall
        (fun n => if n = 0
          then (Except.ok (some { error := some "upstream failure", body := "b0" }) :
            Except String (Option UcscPayload))
          else Except.ok (some { error := none, body := "b1" })) 2 ≠
      (Except.ok (some { error := none, body := "b1" }), [1000]) := by
  exact ⟨rfl, by decide⟩

/-- Witness for `c5_retry_policy`: a thrown failure at attempt 0 (of 3) sleeps
1000 ms and continues; a resolved marked body is returned immediately; and
`fetchUcscData` maps the marker to `null`. -/
theorem c5_retry_policy_witness :
    makeApiCallGo (fun n => if n = 0 then (Except.error "boom" : Except String Nat)
        else Except.ok 7) 0 (2 - 0) =
      ((makeApiCallGo (fun n => if n = 0 then (Except.error "boom" : Except String Nat)
          else Except.ok 7) (0 + 1) (2 - (0 + 1))).1,
        2 ^ 0 * 1000 ::
          (makeApiCallGo (fun n => if n = 0 then (Except.error "boom" : Except String Nat)
              else Except.ok 7) (0 + 1) (2 - (0 + 1))).2) ∧
    makeApiCallGo (fun _ => (Except.ok (some { error := some "marker", body := "b" }) :
        Except String (Option UcscPayload))) 0 (2 - 0) =
      (Except.ok (some { error := some "marker", body := "b" }), []) ∧
    fetchUcscData ⟨"1", 0, 10⟩
        (fun _ => Except.ok (some { error := some "marker", body := "b" })) = none := by
  refine ⟨?_, ?_, ?_⟩
  · exact (c5_retry_policy (fun n => if n = 0 then (Except.error "boom" : Except String Nat)
      else Except.ok 7) 2 0 "boom" 7 (by decide)).1 rfl
  · exact (c5_retry_policy (fun _ => (Except.ok (some { error := some "marker", body := "b" }) :
      Except String (Option UcscPayload))) 2 0 "x"
      (some { error := some "marker", body := "b" }) (by decide)).2.1 rfl
  · exact (c5_retry_policy (fun _ => (Except.ok (some { error := some "marker", body := "b" }) :
      Except String (Option UcscPayload))) 2 0 "x"
      (some { error := some "marker", body := "b" }) (by decide)).2.2
      ⟨"1", 0, 10⟩ (fun _ => Except.ok (some { error := some "marker", body := "b" })) 
      { error := some "marker", body := "b" } rfl rfl

/-- Claim C6, confirmed.  With `maxRetries = 2`: two thrown failures followed
by a success return the third attempt's payload with sleeps of 1000 ms then
2000 ms; three thrown failures rethrow the final attempt's error unwrapped,
after the same sleeps. -/
theorem c6_backoff_schedule {ε α : Type}
    (attempts attempts2 : Nat → Except ε α) (e0 e1 f0 f1 f2 : ε) (p : α)
    (h0 : attempts 0 = Except.error e0) (h1 : attempts 1 = Except.error e1)
    (h2 : attempts 2 = Except.ok p)
    (g0 : attempts2 0 = Except.error f0) (g1 : attempts2 1 = Except.error f1)
    (g2 : attempts2 2 = Except.error f2) :
    makeApiCall attempts 2 = (Except.ok p, [1000, 2000]) ∧
    makeApiCall attempts2 2 = (Except.error f2, [1000, 2000]) := by
  constructor
  · simp [makeApiCall, makeApiCallGo, h0, h1, h2]
  · simp [makeApiCall, makeApiCallGo, g0, g1, g2]

/-- Witness for `c6_backoff_schedule` on concrete oracles. -/
theorem c6_backoff_schedule_witness :
    makeApiCall (fun n => if n ≤ 1 then (Except.error "down" : Except String Nat)
        else Except.ok 42) 2 = (Except.ok 42, [1000, 2000]) ∧
    makeApiCall (fun n => (Except.error (toString n) : Except String Nat)) 2 =
      (Except.error "2", [1000, 2000]) :=
  c6_backoff_schedule (fun n => if n ≤ 1 then Except.error "down" else Except.ok 42)
    (fun n => Except.error (toString n)) "down" "down" "0" "1" "2" 42
    rfl rfl rfl rfl rfl rfl

/-- Claim C2, confirmed.  For an input the classifier tags as an rsID, when the
variation-database lookup resolves: a GRCh38 mapping yields coordinates taken
from that mapping with `source = "rsid_direct"` and the record's allele
string; no GRCh38 mapping makes the resolver fail with the
`"No GRCh38 mapping found for this rsID"` error. -/
theorem c2_rsid_resolution (s : String) (data : VariationData)
    (otherPath : Except String ResolvedCoords)
    (hcls : parseVariantFormat s = ParsedVariant.rsid s) :
    (∀ m, (data.mappings.getD []).find? (fun x => x.assembly_name == "GRCh38") = some m →
      convertHGVS s (Except.ok (some data)) otherPath =
        Except.ok { seq_region_name := m.seq_region_name, start := m.start,
                    end_ := m.end_, strand := some m.strand,
                    allele_string := data.allele_string, source := "rsid_direct" }) ∧
    ((data.mappings.getD []).find? (fun x => x.assembly_name == "GRCh38") = none →
      convertHGVS s (Except.ok (some data)) otherPath =
        Except.error "No GRCh38 mapping found for this rsID") := by
  have hrs := parse_rsid_startsWith hcls
  constructor
  · intro m hm
    unfold convertHGVS
    rw [if_pos hrs]
    unfold convertHgvsRsid
    simp only [hm]
  · intro hm
    unfold convertHGVS
    rw [if_pos hrs]
    unfold convertHgvsRsid
    simp only [hm]

/-- Witness for `c2_rsid_resolution`: a record with a GRCh38 mapping resolves
to it; a record with only a GRCh37 mapping fails with the NotFound error. -/
theorem c2_rsid_resolution_witness :
    convertHGVS "rs123"
        (Except.ok (some ⟨some [⟨"GRCh38", "17", 100, 100, 1⟩], some "A/G"⟩))
        (Except.error "other") =
      Except.ok { seq_region_name := "17", start := 100, end_ := 100, strand := some 1,
                  allele_string := some "A/G", source := "rsid_direct" } ∧
    convertHGVS "rs123"
        (Except.ok (some ⟨some [⟨"GRCh37", "17", 50, 50, 1⟩], none⟩))
        (Except.error "other") =
      Except.error "No GRCh38 mapping found for this rsID" := by
  constructor
  · exact (c2_rsid_resolution "rs123" ⟨some [⟨"GRCh38", "17", 100, 100, 1⟩], some "A/G"⟩
      (Except.error "other") (by decide)).1 ⟨"GRCh38", "17", 100, 100, 1⟩ (by decide)
  · exact (c2_rsid_resolution "rs123" ⟨some [⟨"GRCh37", "17", 50, 50, 1⟩], none⟩
      (Except.error "other") (by decide)).2 (by decide)

/-- Claim C3, confirmed.  When the direct-search heuristic finds nothing, the
gene lookup yields transcripts, every transcript recoding attempt fails, and
the gene-symbol coordinate lookup succeeds, `convertGeneToHGVS` resolves with
gene-level coordinates marked `approximate = true` instead of failing. -/
theorem c3_gene_level_fallback (gene cdnaVariant : String)
    (searchData : Option (List VariationRecord)) (gd : GeneExpandData) (gid : String)
    (t : Transcript) (ts : List Transcript)
    (recoder : String → Except String (Option (List (List RecoderAllele))))
    (glk : Except String (Option GeneLookupData)) (gc : GeneCoords)
    (hdirect : directHeuristic gene cdnaVariant searchData = none)
    (hid : gd.id = some gid)
    (hts : gd.transcriptList = some (t :: ts))
    (hfail : ∀ tid, ∃ e, tryTranscript gene cdnaVariant tid (recoder tid) = Except.error e)
    (hgc : getGeneCoordinates gene glk = Except.ok gc) :
    convertGeneToHGVS gene cdnaVariant searchData (Except.ok (some gd)) recoder glk =
      Except.ok { gene := gene, variant := cdnaVariant, hgvs := none,
                  format := "gene_coordinates", transcript := none,
                  coordinates := some gc, approximate := true } := by
  obtain ⟨le, hloop⟩ := tryTranscriptsLoop_error_of_all_error gene cdnaVariant recoder hfail
    (transcriptsToTry (t :: ts)) none
  unfold convertGeneToHGVS
  simp only [hdirect, hid, hts, hloop, hgc]

/-- Witness for `c3_gene_level_fallback`: BRCA1 c.68_69delAG with a dead
recoding service and a live gene lookup resolves to approximate
gene coordinates. -/
theorem c3_gene_level_fallback_witness :
    convertGeneToHGVS "BRCA1" "c.68_69delAG" none
        (Except.ok (some ⟨some "ENSG00000012048", some [⟨"ENST00000357654", true⟩]⟩))
        (fun _ => Except.error "recoder down")
        (Except.ok (some ⟨some "17", 43044295, 43125364, -1⟩)) =
      Except.ok { gene := "BRCA1", variant := "c.68_69delAG", hgvs := none,
                  format := "gene_coordinates", transcript := none,
                  coordinates := some ⟨"17", 43044295, 43125364, -1, "BRCA1"⟩,
                  approximate := true } :=
  c3_gene_level_fallback "BRCA1" "c.68_69delAG" none
    ⟨some "ENSG00000012048", some [⟨"ENST00000357654", true⟩]⟩ "ENSG00000012048"
    ⟨"ENST00000357654", true⟩ []
    (fun _ => Except.error "recoder down")
    (Except.ok (some ⟨some "17", 43044295, 43125364, -1⟩))
    ⟨"17", 43044295, 43125364, -1, "BRCA1"⟩
    (by decide) rfl rfl (fun tid => ⟨"recoder down", rfl⟩) rfl

/-- Claim C4, confirmed.  Aggregation is a total function of the four settled
layer outcomes: a layer whose call chain exhausts in thrown errors, resolves
with a falsy body, or resolves with a payload-level error marker is recorded
as absent (`none`) while a succeeding layer's payload is kept, and when all
four layers fail the all-absent bundle is still produced as a success. -/
theorem c4_layer_isolation (c : Coords)
    (og oc os ocl : Nat → Except String (Option UcscPayload)) (d : UcscPayload)
    (hok : makeApiCallResult og 2 = Except.ok (some d)) (hd : d.error = none)
    (hcfail : ∀ n, ∃ e, oc n = Except.error e)
    (hsnull : makeApiCallResult os 2 = Except.ok none)
    (hclerr : ∃ dcl, makeApiCallResult ocl 2 = Except.ok (some dcl) ∧
      dcl.error.isSome = true) :
    step4Annotations c og oc os ocl =
      { genes := some d, conservation := none, snps := none, clinvar := none } ∧
    step4Annotations c (fun _ => Except.error "unavailable")
        (fun _ => Except.error "unavailable") (fun _ => Except.error "unavailable")
        (fun _ => Except.error "unavailable") =
      { genes := none, conservation := none, snps := none, clinvar := none } := by
  constructor
  · obtain ⟨ec, hec⟩ := makeApiCallGo_error_of_all_error oc hcfail 2 0
    obtain ⟨dcl, hdcl, herrcl⟩ := hclerr
    have hcres : makeApiCallResult oc 2 = Except.error ec := hec
    unfold step4Annotations fetchGeneAnnotations fetchConservationScores
      fetchKnownSNPs fetchClinVarData fetchUcscData
    rw [hok, hsnull, hdcl, hcres]
    simp [hd, herrcl]
  · rfl

/-- Witness for `c4_layer_isolation`: genes succeeds; conservation's calls all
throw; snps resolves falsy; clinvar resolves with an error marker. -/
theorem c4_layer_isolation_witness :
    step4Annotations ⟨"17", 1, 2⟩
        (fun _ => Except.ok (some { error := none, body := "genes" }))
        (fun _ => Except.error "down") (fun _ => Except.ok none)
        (fun _ => Except.ok (some { error := some "err", body := "" })) =
      { genes := some { error := none, body := "genes" }, conservation := none,
        snps := none, clinvar := none } ∧
    step4Annotations ⟨"17", 1, 2⟩ (fun _ => Except.error "unavailable")
        (fun _ => Except.error "unavailable") (fun _ => Except.error "unavailable")
        (fun _ => Except.error "unavailable") =
      { genes := none, conservation := none, snps := none, clinvar := none } :=
  c4_layer_isolation ⟨"17", 1, 2⟩
    (fun _ => Except.ok (some { error := none, body := "genes" }))
    (fun _ => Except.error "down") (fun _ => Except.ok none)
    (fun _ => Except.ok (some { error := some "err", body := "" }))
    { error := none, body := "genes" } rfl rfl
    (fun n => ⟨"down", rfl⟩) rfl
    ⟨{ error := some "err", body := "" }, rfl, rfl⟩

/-- Claim C7, corrected.  The claim bounds the fallback loop to at most 3
transcript candidates (canonical plus at most 2 others).  That is false: the
candidate list is the canonical id followed by the first three transcript ids
excluding the canonical, so when the canonical transcript sits outside the
first three, 4 candidates are attempted (see the counterexample).  Amended:
the canonical id (or the first transcript's id when none is flagged) comes
first, followed, in declaration order, by the first three transcript ids
excluding it — hence at most 4 candidates in general, and at most 3 exactly
when the canonical id occurs among the first three. -/
theorem c7_transcript_candidates (ts : List Transcript) (tid : String)
    (h : canonicalId ts = some tid) :
    (transcriptsToTry ts).head? = some tid ∧
    (transcriptsToTry ts).length ≤ 4 ∧
    (tid ∈ (ts.take 3).map Transcript.id → (transcriptsToTry ts).length ≤ 3) ∧
    List.Sublist ((transcriptsToTry ts).tail) ((ts.take 3).map Transcript.id) := by
  unfold transcriptsToTry
  rw [h]
  refine ⟨rfl, ?_, ?_, ?_⟩
  · have h1 : ((((ts.take 3).map Transcript.id)).filter (fun i => i != tid)).length ≤
        ((ts.take 3).map Transcript.id).length := List.length_filter_le _ _
    have h2 : ((ts.take 3).map Transcript.id).length ≤ 3 := by
      rw [List.length_map]
      simpa using List.length_take_le 3 ts
    simp only [List.length_cons]
    omega
  · intro hmem
    have hlt : ((((ts.take 3).map Transcript.id)).filter (fun i => i != tid)).length <
        ((ts.take 3).map Transcript.id).length :=
      List.length_filter_lt_length_iff_exists.2 ⟨tid, hmem, by simp⟩
    have h2 : ((ts.take 3).map Transcript.id).length ≤ 3 := by
      rw [List.length_map]
      simpa using List.length_take_le 3 ts
    simp only [List.length_cons]
    omega
  · simpa using List.filter_sublist ((ts.take 3).map Transcript.id)

/-- Counterexample to claim C7 as stated: four transcripts with the canonical
flagged last make the loop attempt 4 candidates, not at most 3. -/
theorem c7_transcript_candidates_counterexample :
    transcriptsToTry [⟨"t1", false⟩, ⟨"t2", false⟩, ⟨"t3", false⟩, ⟨"t4", true⟩] =
      ["t4", "t1", "t2", "t3"] ∧
    ¬(transcriptsToTry [⟨"t1", false⟩, ⟨"t2", false⟩, ⟨"t3", false⟩, ⟨"t4", true⟩]).length ≤ 3 := by
  decide

/-- Witness for `c7_transcript_candidates` on a two-transcript list with the
canonical first. -/
theorem c7_transcript_candidates_witness :
    (transcriptsToTry [⟨"t1", true⟩, ⟨"t2", false⟩]).head? = some "t1" ∧
    (transcriptsToTry [⟨"t1", true⟩, ⟨"t2", false⟩]).length ≤ 4 ∧
    (transcriptsToTry [⟨"t1", true⟩, ⟨"t2", false⟩]).length ≤ 3 ∧
    List.Sublist ((transcriptsToTry [⟨"t1", true⟩, ⟨"t2", false⟩]).tail)
      ((([⟨"t1", true⟩, ⟨"t2", false⟩] : List Transcript).take 3).map Transcript.id) := by
  have H := c7_transcript_candidates [⟨"t1", true⟩, ⟨"t2", false⟩] "t1" (by decide)
  exact ⟨H.1, H.2.1, H.2.2.1 (by decide), H.2.2.2⟩

/-- Claim C8, corrected.  The claim says every change captured by a GeneCdna
classification begins with `c.` and nothing else is classified as GeneCdna.
That is false: the regex is `^([A-Za-z0-9]+)[\s:]([cp]\..*)`, whose second
group also accepts a protein-style `p.` change (see the counterexample).
Amended: every captured change begins with `c.` or with `p.`, and no string
whose post-separator part begins with neither is classified as GeneCdna. -/
theorem c8_change_designator (s g v : String)
    (h : parseVariantFormat s = ParsedVariant.cdna g v) :
    v.toList.take 2 = ['c', '.'] ∨ v.toList.take 2 = ['p', '.'] := by
  unfold parseVariantFormat at h
  split at h
  · exact absurd h (by simp)
  · split at h
    · rename_i a b heq
      obtain ⟨d, rest, hb, hd⟩ := matchGeneCdna_shape heq
      injection h with hg hv
      rcases hd with hd | hd <;> subst hd
      · left
        rw [← hv, hb]
        rfl
      · right
        rw [← hv, hb]
        rfl
    · split at h
      · exact absurd h (by simp)
      · exact absurd h (by simp)

/-- Counterexample to claim C8 as stated: a `p.` change is classified as
GeneCdna, and its captured change does not begin with `c.`. -/
theorem c8_change_designator_counterexample :
    parseVariantFormat "GENE1 p.Val600Glu" = ParsedVariant.cdna "GENE1" "p.Val600Glu" ∧
    "p.Val600Glu".toList.take 2 ≠ ['c', '.'] := by
  decide

/-- Witness for `c8_change_designator` on a coding-DNA change. -/
theorem c8_change_designator_witness :
    "c.68_69delAG".toList.take 2 = ['c', '.'] ∨
    "c.68_69delAG".toList.take 2 = ['p', '.'] :=
  c8_change_designator "BRCA1 c.68_69delAG" "BRCA1" "c.68_69delAG" (by decide)

/-- Claim C9, confirmed.  `parseVariantFormat` is a total function (so it
terminates without throwing on every input; the JS try/catch wrapper is dead
code), always returns exactly one of the four tagged outcomes, and is
deterministic. -/
theorem c9_classifier_total (s : String) :
    ((∃ h, parseVariantFormat s = ParsedVariant.hgvs h) ∨
     (∃ g v, parseVariantFormat s = ParsedVariant.cdna g v) ∨
     (∃ r, parseVariantFormat s = ParsedVariant.rsid r) ∨
     (∃ m, parseVariantFormat s = ParsedVariant.err m)) ∧
    parseVariantFormat s = parseVariantFormat s := by
  refine ⟨?_, rfl⟩
  unfold parseVariantFormat
  split
  · exact Or.inl ⟨s, rfl⟩
  · split
    · rename_i a b heq
      exact Or.inr (Or.inl ⟨String.mk a, String.mk b, rfl⟩)
    · split
      · exact Or.inr (Or.inr (Or.inl ⟨s, rfl⟩))
      · exact Or.inr (Or.inr (Or.inr ⟨"Unrecognized variant format", rfl⟩))

/-- Claim C10, confirmed.  For an input classified as hgvs or rsid whose
coordinate conversion throws, with no gene symbol available as a fallback,
`variantToPhenotypeExploration` swallows the error: it returns the
success-shaped results object with `coordinates` null and `annotations` still
the initial empty object, not an error object. -/
theorem c10_conversion_error_swallowed (s : String) (cg : Except String HgvsResult)
    (e : String) (gc : Except String GeneCoords)
    (og oc os ocl : Nat → Except String (Option UcscPayload))
    (hcls : parseVariantFormat s = ParsedVariant.rsid s ∨
            parseVariantFormat s = ParsedVariant.hgvs s) :
    ∃ r, variantToPhenotypeExploration s cg (Except.error e) gc og oc os ocl =
        ExploreOutcome.success r ∧ r.coordinates = none ∧ r.annotations = none := by
  rcases hcls with h | h
  · refine ⟨⟨s, some (ParsedVariant.rsid s), some (HgvsInfo.simple "rsid" s),
      none, none, none⟩, ?_, rfl, rfl⟩
    unfold variantToPhenotypeExploration
    simp only [h]
    unfold finishExploration step3Coordinates
    cases htr : truthyStr (HgvsInfo.simple "rsid" s).hgvsField <;>
      simp [htr, HgvsInfo.geneField, Option.or]
  · refine ⟨⟨s, some (ParsedVariant.hgvs s), some (HgvsInfo.simple "hgvs" s),
      none, none, none⟩, ?_, rfl, rfl⟩
    unfold variantToPhenotypeExploration
    simp only [h]
    unfold finishExploration step3Coordinates
    cases htr : truthyStr (HgvsInfo.simple "hgvs" s).hgvsField <;>
      simp [htr, HgvsInfo.geneField, Option.or]

/-- Witness for `c10_conversion_error_swallowed` on the rsID input `rs123`
with every downstream call failing. -/
theorem c10_conversion_error_swallowed_witness :
    ∃ r, variantToPhenotypeExploration "rs123" (Except.error "nope")
        (Except.error "convert failed") (Except.error "gene failed")
        (fun _ => Except.error "a") (fun _ => Except.error "a")
        (fun _ => Except.error "a") (fun _ => Except.error "a") =
        ExploreOutcome.success r ∧ r.coordinates = none ∧ r.annotations = none :=
  c10_conversion_error_swallowed "rs123" (Except.error "nope") "convert failed"
    (Except.error "gene failed") (fun _ => Except.error "a") (fun _ => Except.error "a")
    (fun _ => Except.error "a") (fun _ => Except.error "a") (Or.inl (by decide))
